import Mathlib

/-!
Shallow embedding of `src/app.py` (vaultwarden-proxy).

The program keeps one module-level mutable dictionary `_stats_cache` with four
entries (`stats`, `last_fetch`, `session_cookie`, `cookie_expiry`), and two
functions reading and writing it: `get_admin_session` (lines 30-69) and
`get_vaultwarden_stats` (lines 71-168).  We embed the mutable dictionary as an
explicit `CacheState` threaded through both functions, the upstream HTTP
responses as explicit parameters (`AuthOutcome`, `UsersOutcome`), the clock
`time.time()` / `datetime.utcnow()` as one integer `now` of seconds (the two
clock reads inside a single call are merged into one instant; naive `datetime`
values are represented by their seconds since 1970-01-01, an order-isomorphic
encoding of Python's lexicographic `datetime` comparison), and raised
exceptions as `Except` error values.  Each upstream call that the code issues
is counted explicitly so that "no network call" claims are statements about
the model.

JSON values decoded from upstream bodies are modelled by `JVal` (JSON numbers
restricted to integers, which is what the cipher-count fields hold).  Python
truthiness of those values is `JVal.truthy`, and `dict.get` with a default is
`pyGetD`.  Python `None` and an empty dict are both falsy and the code never
stores an empty cookie/stats dict, so the cached `session_cookie` and `stats`
entries are embedded as plain lists with `[]` standing for the initial `None`;
that identification is unobservable in the program.
-/

namespace VaultwardenProxy

/-- JSON values as decoded by `users_response.json()`; numbers restricted to
integers (the only numeric payloads the statistics code consumes). -/
inductive JVal where
  | jnull
  | jbool (b : Bool)
  | jnum (n : Int)
  | jstr (s : String)
  | jarr (elems : List JVal)
  | jobj (fields : List (String × JVal))

/-- Python truthiness for the modelled JSON values (`None`, `False`, `0`,
empty string/list/dict are falsy). -/
def JVal.truthy : JVal → Bool
  | .jnull => false
  | .jbool b => b
  | .jnum n => !(n == 0)
  | .jstr s => !(s == "")
  | .jarr l => !l.isEmpty
  | .jobj f => !f.isEmpty

/-- One upstream user record: a JSON object, embedded as an association list
(first binding wins, as in a Python dict after `json` decoding). -/
abbrev JRecord := List (String × JVal)

/-- Python `user.get(k, d)`: the stored value when the key is present
(even when that value is `None`), otherwise the default. -/
def pyGetD (u : JRecord) (k : String) (d : JVal) : JVal :=
  match u.lookup k with
  | some v => v
  | none => d

/-- Python `a or b` on values: `a` when truthy, otherwise `b`. -/
def pyOr (a b : JVal) : JVal :=
  if a.truthy then a else b

/-! ### Timestamp parsing (app.py lines 118-121)

`last_active.split('+')[0].strip()` followed by
`datetime.strptime(s, '%Y-%m-%d %H:%M:%S')`.  CPython's `strptime` compiles
the format to a regex: `%Y` is four digits; `%m` is `1[0-2]|0[1-9]|[1-9]`;
`%d` is `3[01]|[12]\d|0[1-9]|[1-9]`; `%H` is `2[0-3]|[0-1]\d|\d`; `%M` is
`[0-5]\d|\d`; `%S` is `6[0-1]|[0-5]\d|\d`; a space in the format matches one
or more whitespace characters; the whole string must be consumed.  The
matched fields then go through the `datetime` constructor, which rejects
year 0, a day beyond the month's length, and seconds 60/61.  Every field is
followed by a delimiter (`-`, `:`, whitespace or end of input) that can never
be a digit, so the regex's ordered alternation with backtracking coincides
with the committed two-digits-first matching implemented here. -/

/-- Characters Python's `str.strip()` and the `\s` regex class treat as
whitespace (the ASCII ones; upstream timestamps are ASCII). -/
def isPySpace (c : Char) : Bool :=
  c == ' ' || c == '\t' || c == '\n' || c == '\r' || c == '\x0b' || c == '\x0c'

/-- Python `s.split('+')[0]`: the prefix before the first `'+'`. -/
def splitPlusHead (cs : List Char) : List Char :=
  cs.takeWhile (· != '+')

/-- Python `s.strip()`: drop leading and trailing whitespace. -/
def pyStrip (cs : List Char) : List Char :=
  ((cs.dropWhile isPySpace).reverse.dropWhile isPySpace).reverse

/-- Numeric value of an ASCII digit. -/
def digitVal (c : Char) : Option Nat :=
  if '0' ≤ c ∧ c ≤ '9' then some (c.toNat - '0'.toNat) else none

/-- Match a one-or-two digit field of the `strptime` regex: a two-digit match
is taken when its value satisfies `valid2`, otherwise a single digit
satisfying `valid1`. -/
def matchNum2or1 (valid2 valid1 : Nat → Bool) : List Char → Option (Nat × List Char)
  | [] => none
  | c1 :: rest1 =>
    match digitVal c1 with
    | none => none
    | some d1 =>
      match rest1 with
      | c2 :: rest2 =>
        match digitVal c2 with
        | some d2 =>
          if valid2 (10 * d1 + d2) then some (10 * d1 + d2, rest2)
          else if valid1 d1 then some (d1, rest1) else none
        | none => if valid1 d1 then some (d1, rest1) else none
      | [] => if valid1 d1 then some (d1, rest1) else none

/-- Match exactly four digits (`%Y`). -/
def matchYear4 : List Char → Option (Nat × List Char)
  | a :: b :: c :: d :: rest =>
    match digitVal a, digitVal b, digitVal c, digitVal d with
    | some w, some x, some y, some z => some (1000 * w + 100 * x + 10 * y + z, rest)
    | _, _, _, _ => none
  | _ => none

/-- Match one literal character. -/
def expectChar (ch : Char) : List Char → Option (List Char)
  | c :: rest => if c == ch then some rest else none
  | [] => none

/-- Match one or more whitespace characters (a space in a `strptime` format). -/
def matchSpaces : List Char → Option (List Char)
  | c :: rest => if isPySpace c then some (rest.dropWhile isPySpace) else none
  | [] => none

/-- Gregorian leap year. -/
def isLeap (y : Nat) : Bool :=
  y % 4 == 0 && (!(y % 100 == 0) || y % 400 == 0)

/-- Length of a month, as validated by Python's `datetime` constructor. -/
def daysInMonth (y m : Nat) : Nat :=
  if m == 2 then (if isLeap y then 29 else 28)
  else if m == 4 || m == 6 || m == 9 || m == 11 then 30
  else 31

/-- A parsed naive datetime `(year, month, day, hour, minute, second)`. -/
abbrev DT := Nat × Nat × Nat × Nat × Nat × Nat

/-- The `strptime('%Y-%m-%d %H:%M:%S')` pattern followed by the `datetime`
constructor's range checks; `none` is Python's `ValueError`. -/
def strptimeDT (cs : List Char) : Option DT := do
  let (y, r) ← matchYear4 cs
  let r ← expectChar '-' r
  let (mo, r) ← matchNum2or1 (fun v => decide (1 ≤ v ∧ v ≤ 12)) (fun v => decide (1 ≤ v)) r
  let r ← expectChar '-' r
  let (d, r) ← matchNum2or1 (fun v => decide (1 ≤ v ∧ v ≤ 31)) (fun v => decide (1 ≤ v)) r
  let r ← matchSpaces r
  let (h, r) ← matchNum2or1 (fun v => decide (v ≤ 23)) (fun _ => true) r
  let r ← expectChar ':' r
  let (mi, r) ← matchNum2or1 (fun v => decide (v ≤ 59)) (fun _ => true) r
  let r ← expectChar ':' r
  let (s, r) ← matchNum2or1 (fun v => decide (v ≤ 61)) (fun _ => true) r
  if r.isEmpty then
    if 1 ≤ y ∧ d ≤ daysInMonth y mo ∧ s ≤ 59 then some (y, mo, d, h, mi, s) else none
  else none

/-- Days since 1970-01-01 of a proleptic Gregorian date with `y ≥ 1`
(civil-from-days inverse, standard era/year-of-era decomposition). -/
def daysFromCivil (y m d : Nat) : Int :=
  let y' := if m ≤ 2 then y - 1 else y
  let era := y' / 400
  let yoe := y' % 400
  let mp := if 3 ≤ m then m - 3 else m + 9
  let doy := (153 * mp + 2) / 5 + d - 1
  let doe := yoe * 365 + yoe / 4 - yoe / 100 + doy
  (era * 146097 + doe : Int) - 719468

/-- Seconds since 1970-01-01 00:00:00 of a naive datetime; strictly monotone
in Python's lexicographic `datetime` ordering, so `<` on these integers is
exactly `<` on the naive datetimes. -/
def toEpochSec : DT → Int
  | (y, mo, d, h, mi, s) => 86400 * daysFromCivil y mo d + 3600 * h + 60 * mi + s

/-- Lines 120-121: strip the `'+'`-suffix and surrounding whitespace, then
parse; the result is the timestamp's seconds since the epoch. -/
def parseLastActive (s : String) : Option Int :=
  (strptimeDT (pyStrip (splitPlusHead s.data))).map toEpochSec

/-! ### Statistics derivation (app.py lines 94-157)

The per-record loop body: resolve `lastActive`/`_LastActive` (line 115),
attempt the parse and compare against `thirty_days_ago` (lines 116-126,
`ValueError`/`AttributeError` swallowed), then resolve the cipher-count field
(line 130) and add it to `total_items` (line 131).  The addition is Python
`int.__add__`: it accepts integers and booleans and raises `TypeError` on any
other (truthy non-numeric, or falsy `None`/`''`/`[]`/`{}`) resolved value;
that exception is not caught anywhere in the loop. -/

/-- Line 115: `user.get('lastActive') or user.get('_LastActive')`. -/
def resolveLastActive (u : JRecord) : JVal :=
  pyOr (pyGetD u "lastActive" .jnull) (pyGetD u "_LastActive" .jnull)

/-- Line 130: `user.get('CipherCount', 0) or user.get('cipher_count', 0) or
user.get('items_count', 0)`. -/
def resolveCipher (u : JRecord) : JVal :=
  pyOr (pyGetD u "CipherCount" (.jnum 0))
    (pyOr (pyGetD u "cipher_count" (.jnum 0)) (pyGetD u "items_count" (.jnum 0)))

/-- Lines 116-126: 1 when the record's last-active value is truthy, is a
string, parses, and is strictly after `now - 30 days`; parse failures on
strings (`ValueError`) and `.split` on non-strings (`AttributeError`) are
swallowed and count 0. -/
def activeIncrement (now : Int) (u : JRecord) : Nat :=
  let la := resolveLastActive u
  if la.truthy then
    match la with
    | .jstr s =>
      match parseLastActive s with
      | some t => if now - 30 * 86400 < t then 1 else 0
      | none => 0
    | _ => 0
  else 0

/-- Line 131: the value `total_items += cipher_count` adds, when the addition
is defined (`int` or `bool`); `none` is the uncaught `TypeError`. -/
def cipherAdd : JVal → Option Int
  | .jnum n => some n
  | .jbool b => some (if b then 1 else 0)
  | _ => none

/-- Errors escaping the derivation: the uncaught `TypeError` of line 131. -/
inductive DeriveError where
  | typeError
deriving DecidableEq

/-- The `for user in users_data` loop (lines 113-131), accumulating
`(active_users, total_items)`. -/
def deriveLoop (now : Int) (acc : Nat × Int) : List JRecord → Except DeriveError (Nat × Int)
  | [] => .ok acc
  | u :: rest =>
    match cipherAdd (resolveCipher u) with
    | none => .error .typeError
    | some k => deriveLoop now (acc.1 + activeIncrement now u, acc.2 + k) rest

/-- The result dictionary literal of lines 149-157: all seven keys are always
present; `logins`, `notes`, `cards`, `identities` come from the
`items_by_type` accumulator initialized to zeros (lines 106-111) and never
updated in the loop. -/
def mkSnap (totalUsers activeUsers : Nat) (totalItems : Int) : List (String × Int) :=
  [("total_users", (totalUsers : Int)), ("active_users", (activeUsers : Int)),
   ("total_items", totalItems), ("logins", 0), ("notes", 0), ("cards", 0), ("identities", 0)]

/-- The pure statistics derivation of lines 94-157 (the opportunistic
diagnostics fetch of lines 137-147 touches neither the result nor the cache
and is swallowed on failure, so it does not appear in the value model). -/
def derive (now : Int) (records : List JRecord) : Except DeriveError (List (String × Int)) :=
  match deriveLoop now (0, 0) records with
  | .error e => .error e
  | .ok acc => .ok (mkSnap records.length acc.1 acc.2)

/-! ### The session and statistics caches (app.py lines 17-28, 30-69, 71-168)

The module-level `_stats_cache` dictionary is the `CacheState`; the
environment-derived constants `ADMIN_TOKEN` and `CACHE_TIMEOUT` are the
`Config`.  The upstream login response (`requests.post`, lines 45-51) and
user-listing response (`requests.get`, lines 85-89 plus the `.json()` decode
of line 91) are parameters of each call; `transport` stands for any
`requests` exception raised by the call itself (connection failure, timeout).
The third component of each result counts the network calls the code issued:
for `get_admin_session` the login `POST`s, for `get_vaultwarden_stats` the
pair (login `POST`s, user-listing `GET`s). -/

/-- The environment configuration the two functions read: `ADMIN_TOKEN`
(`None` when the variable is unset) and `CACHE_TIMEOUT` in seconds. -/
structure Config where
  admin_token : Option String
  cache_timeout : Int
deriving DecidableEq

/-- Line 40, `if not ADMIN_TOKEN`: the token is configured when it is set and
non-empty (an empty string is falsy in Python). -/
def tokenConfigured (cfg : Config) : Bool :=
  match cfg.admin_token with
  | none => false
  | some s => !(s == "")

/-- The cookie dictionary `auth_response.cookies.get_dict()`. -/
abbrev Cookies := List (String × String)

/-- The mutable `_stats_cache` dictionary (lines 23-28).  `stats` and
`session_cookie` start as Python `None`, embedded as `[]`: `None` and an
empty dict are equally falsy and the code only ever stores non-empty dicts,
so the two are indistinguishable in the program. -/
structure CacheState where
  stats : List (String × Int)
  last_fetch : Int
  session_cookie : Cookies
  cookie_expiry : Int
deriving DecidableEq

/-- The initial cache contents (lines 23-28). -/
def initState : CacheState := ⟨[], 0, [], 0⟩

/-- The login response: a transport-level `requests` exception, or a response
with a status code and decoded cookie dictionary. -/
inductive AuthOutcome where
  | transport
  | resp (status : Nat) (cookies : Cookies)

/-- Exceptions escaping `get_admin_session`: the `ADMIN_TOKEN` configuration
error (line 41), the bad-status error carrying the status code (line 56), the
missing-`VW_ADMIN`-cookie error (line 62), and a transport exception from
`requests.post` itself (not caught in the function). -/
inductive SessionError where
  | configError
  | authStatus (code : Nat)
  | authNoCookie
  | authTransport
deriving DecidableEq

/-- Line 60: `'VW_ADMIN' in session_cookie`. -/
def hasVWAdmin (c : Cookies) : Bool :=
  c.any (fun p => p.1 == "VW_ADMIN")

/-- `get_admin_session` (lines 30-69): return the cached cookie when it is
truthy and unexpired (lines 35-38); otherwise fail fast without a network
call when no token is configured (lines 40-41); otherwise issue the login
`POST` and either fail—leaving the cache untouched—or store the cookie with a
one-hour expiry (lines 45-69). -/
def get_admin_session (cfg : Config) (now : Int) (st : CacheState) (auth : AuthOutcome) :
    Except SessionError Cookies × CacheState × Nat :=
  if !st.session_cookie.isEmpty && decide (now < st.cookie_expiry) then
    (.ok st.session_cookie, st, 0)
  else if !(tokenConfigured cfg) then
    (.error .configError, st, 0)
  else
    match auth with
    | .transport => (.error .authTransport, st, 1)
    | .resp status cookies =>
      if !(status == 200 || status == 302) then
        (.error (.authStatus status), st, 1)
      else if cookies.isEmpty || !(hasVWAdmin cookies) then
        (.error .authNoCookie, st, 1)
      else
        (.ok cookies, ⟨st.stats, st.last_fetch, cookies, now + 3600⟩, 1)

/-- The user-listing response: a transport-level `requests` exception, or a
response with a status code and a decoded JSON body (`none` when the body is
not valid JSON, which `response.json()` turns into a `RequestException`). -/
inductive UsersOutcome where
  | transport
  | resp (status : Nat) (body : Option (List JRecord))

/-- Exceptions escaping `get_vaultwarden_stats`: an exception propagated from
`get_admin_session` (line 81 is outside the `try`), the re-raised
`RequestException`s of the listing fetch (transport failure, the
`raise_for_status` of line 90, the JSON decode of line 91), and the uncaught
`TypeError` of the derivation loop. -/
inductive StatsError where
  | sessionErr (e : SessionError)
  | fetchTransport
  | fetchHTTP (status : Nat)
  | fetchDecode
  | deriveErr (e : DeriveError)
deriving DecidableEq

/-- Kinds of `StatsError` raised by the listing fetch itself (the
`requests.exceptions.RequestException`s re-raised at line 168). -/
def StatsError.isFetchErr : StatsError → Bool
  | .fetchTransport => true
  | .fetchHTTP _ => true
  | .fetchDecode => true
  | _ => false

/-- The `try` block of lines 83-168 after a credential was obtained: issue the
listing `GET`, re-raise its failures (`raise_for_status` raises exactly for
status codes 400-599), derive the statistics, and on success overwrite the
stats cache with `fetchedAt = now` (lines 160-161, using the `now` captured at
line 74). -/
def fetchAndDerive (now : Int) (st1 : CacheState) (users : UsersOutcome) (nAuth : Nat) :
    Except StatsError (List (String × Int)) × CacheState × (Nat × Nat) :=
  match users with
  | .transport => (.error .fetchTransport, st1, (nAuth, 1))
  | .resp status body =>
    if 400 ≤ status ∧ status ≤ 599 then
      (.error (.fetchHTTP status), st1, (nAuth, 1))
    else
      match body with
      | none => (.error .fetchDecode, st1, (nAuth, 1))
      | some records =>
        match derive now records with
        | .error e => (.error (.deriveErr e), st1, (nAuth, 1))
        | .ok result =>
          (.ok result, ⟨result, now, st1.session_cookie, st1.cookie_expiry⟩, (nAuth, 1))

/-- `get_vaultwarden_stats` (lines 71-168): return the cached snapshot when it
is truthy and fresh (lines 74-78); otherwise obtain a session (propagating its
exceptions with the cache as `get_admin_session` left it) and run the listing
fetch and derivation. -/
def get_vaultwarden_stats (cfg : Config) (now : Int) (st : CacheState)
    (auth : AuthOutcome) (users : UsersOutcome) :
    Except StatsError (List (String × Int)) × CacheState × (Nat × Nat) :=
  if !st.stats.isEmpty && decide (now - st.last_fetch < cfg.cache_timeout) then
    (.ok st.stats, st, (0, 0))
  else
    match get_admin_session cfg now st auth with
    | (.error e, st1, n) => (.error (.sessionErr e), st1, (n, 0))
    | (.ok _cookies, st1, n) => fetchAndDerive now st1 users n

/-- A user-listing outcome the `try` block of lines 83-168 turns into a
re-raised `RequestException`: a transport failure, a status `raise_for_status`
rejects, or an undecodable JSON body. -/
def usersFetchFailed : UsersOutcome → Bool
  | .transport => true
  | .resp status body => decide (400 ≤ status ∧ status ≤ 599) || body.isNone

/-- The error such a failed listing outcome raises. -/
def usersFailErr : UsersOutcome → StatsError
  | .transport => .fetchTransport
  | .resp status _ => if 400 ≤ status ∧ status ≤ 599 then .fetchHTTP status else .fetchDecode

/-- A snapshot carries the four item-type breakdown keys, each with value 0. -/
def zeroBreakdown (r : List (String × Int)) : Bool :=
  (r.lookup "logins" == some 0) && (r.lookup "notes" == some 0) &&
    (r.lookup "cards" == some 0) && (r.lookup "identities" == some 0)

/-! ### Characterizing the derivation loop -/

/-- Every record's resolved cipher-count value is one the `+=` of line 131
accepts (an integer or a boolean). -/
def allAddable (recs : List JRecord) : Bool :=
  recs.all (fun u => (cipherAdd (resolveCipher u)).isSome)

/-- The number of records counted active: sum of the per-record increments. -/
def specActive (now : Int) (recs : List JRecord) : Nat :=
  (recs.map (activeIncrement now)).sum

/-- The summed cipher counts (per-record resolved value, 0 for the
non-addable values that in fact abort the loop). -/
def specItems (recs : List JRecord) : Int :=
  (recs.map (fun u => (cipherAdd (resolveCipher u)).getD 0)).sum

theorem deriveLoop_eq (now : Int) (recs : List JRecord) (a : Nat × Int) :
    deriveLoop now a recs =
      if allAddable recs then .ok (a.1 + specActive now recs, a.2 + specItems recs)
      else .error .typeError := by
  induction recs generalizing a with
  | nil => simp [deriveLoop, allAddable, specActive, specItems]
  | cons u rest ih =>
    simp only [deriveLoop, allAddable, specActive, specItems, List.all_cons,
      List.map_cons, List.sum_cons]
    cases h : cipherAdd (resolveCipher u) with
    | none => simp [h]
    | some k =>
      simp only [h, Option.isSome_some, Bool.true_and, ih, allAddable, specActive, specItems,
        Option.getD_some]
      rcases Bool.eq_false_or_eq_true (rest.all fun u => (cipherAdd (resolveCipher u)).isSome)
        with hr | hr
      · simp only [hr, if_true, Except.ok.injEq, Prod.mk.injEq]
        constructor <;> omega
      · simp [hr]

theorem derive_eq (now : Int) (recs : List JRecord) :
    derive now recs =
      if allAddable recs then
        .ok (mkSnap recs.length (specActive now recs) (specItems recs))
      else .error .typeError := by
  unfold derive
  rw [deriveLoop_eq]
  by_cases h : allAddable recs = true
  · simp [h]
  · simp [h]

theorem derive_ok_shape (now : Int) (recs : List JRecord) (r : List (String × Int))
    (h : derive now recs = .ok r) :
    r = mkSnap recs.length (specActive now recs) (specItems recs) := by
  rw [derive_eq] at h
  split at h
  · exact (Except.ok.injEq _ _).mp h |>.symm
  · exact absurd h (by simp)

/-! ### Cache-state preservation facts -/

theorem get_admin_session_preserves_stats (cfg : Config) (now : Int) (st : CacheState)
    (auth : AuthOutcome) :
    ((get_admin_session cfg now st auth).2.1).stats = st.stats ∧
      ((get_admin_session cfg now st auth).2.1).last_fetch = st.last_fetch := by
  unfold get_admin_session
  split
  · exact ⟨rfl, rfl⟩
  · split
    · exact ⟨rfl, rfl⟩
    · cases auth with
      | transport => exact ⟨rfl, rfl⟩
      | resp status cookies =>
        simp only
        split
        · exact ⟨rfl, rfl⟩
        · split
          · exact ⟨rfl, rfl⟩
          · exact ⟨rfl, rfl⟩

theorem get_admin_session_cache_hit (cfg : Config) (now : Int) (st : CacheState)
    (auth : AuthOutcome) (h1 : st.session_cookie ≠ []) (h2 : now < st.cookie_expiry) :
    get_admin_session cfg now st auth = (.ok st.session_cookie, st, 0) := by
  unfold get_admin_session
  rw [if_pos]
  simp [h1, h2, List.isEmpty_iff]

theorem lookup_mkSnap_total_users (tu au : Nat) (ti : Int) :
    (mkSnap tu au ti).lookup "total_users" = some (tu : Int) := rfl

theorem lookup_mkSnap_active_users (tu au : Nat) (ti : Int) :
    (mkSnap tu au ti).lookup "active_users" = some (au : Int) := rfl

theorem lookup_mkSnap_total_items (tu au : Nat) (ti : Int) :
    (mkSnap tu au ti).lookup "total_items" = some ti := rfl

theorem zeroBreakdown_mkSnap (tu au : Nat) (ti : Int) :
    zeroBreakdown (mkSnap tu au ti) = true := rfl

theorem fetchAndDerive_breakdown (now : Int) (st1 : CacheState) (users : UsersOutcome)
    (n : Nat) :
    (∀ r, (fetchAndDerive now st1 users n).1 = .ok r → zeroBreakdown r = true) ∧
      ((fetchAndDerive now st1 users n).2.1.stats = st1.stats ∨
        zeroBreakdown (fetchAndDerive now st1 users n).2.1.stats = true) := by
  cases users with
  | transport => exact ⟨fun r h => absurd h (by simp [fetchAndDerive]), Or.inl rfl⟩
  | resp status body =>
    by_cases hs : 400 ≤ status ∧ status ≤ 599
    · refine ⟨fun r h => absurd h ?_, Or.inl ?_⟩ <;> simp [fetchAndDerive, hs]
    · cases body with
      | none => refine ⟨fun r h => absurd h ?_, Or.inl ?_⟩ <;> simp [fetchAndDerive, hs]
      | some records =>
        cases hd : derive now records with
        | error e => refine ⟨fun r h => absurd h ?_, Or.inl ?_⟩ <;> simp [fetchAndDerive, hs, hd]
        | ok result =>
          refine ⟨fun r h => ?_, Or.inr ?_⟩
          · have hr : r = result := by
              have := h
              simp [fetchAndDerive, hs, hd] at this
              exact this.symm
            rw [hr, derive_ok_shape now records result hd, zeroBreakdown_mkSnap]
          · have hst : (fetchAndDerive now st1 (.resp status (some records)) n).2.1.stats
                = result := by simp [fetchAndDerive, hs, hd]
            rw [hst, derive_ok_shape now records result hd, zeroBreakdown_mkSnap]

/-! ### Claim theorems -/

/-- C1: whenever a snapshot is stored (the stored dictionaries are non-empty)
and `now - last_fetch < CACHE_TIMEOUT`, `get_vaultwarden_stats` returns the
stored snapshot itself, leaves the cache untouched, and issues zero upstream
calls (no authentication `POST` and no user-list `GET`). -/
theorem stats_cache_hit_returns_stored_snapshot (cfg : Config) (now : Int) (st : CacheState)
    (auth : AuthOutcome) (users : UsersOutcome)
    (hstored : st.stats ≠ []) (hfresh : now - st.last_fetch < cfg.cache_timeout) :
    get_vaultwarden_stats cfg now st auth users = (.ok st.stats, st, (0, 0)) := by
  unfold get_vaultwarden_stats
  rw [if_pos]
  simp [hstored, hfresh, List.isEmpty_iff]

/-- Witness for C1 at a concrete stored snapshot within the TTL. -/
theorem stats_cache_hit_witness :
    get_vaultwarden_stats ⟨some "tok", 300⟩ 100 ⟨mkSnap 2 1 0, 0, [], 0⟩ .transport .transport
      = (.ok (mkSnap 2 1 0), ⟨mkSnap 2 1 0, 0, [], 0⟩, (0, 0)) :=
  stats_cache_hit_returns_stored_snapshot ⟨some "tok", 300⟩ 100 ⟨mkSnap 2 1 0, 0, [], 0⟩
    .transport .transport (by decide) (by decide)

/-- C4: with no admin token configured (unset or empty) and no unexpired
cached cookie, `get_admin_session` raises the configuration error, leaves the
cache untouched, and issues zero network calls: the check of lines 40-41
precedes the `requests.post`. -/
theorem missing_admin_token_config_error (cfg : Config) (now : Int) (st : CacheState)
    (auth : AuthOutcome)
    (hnotok : tokenConfigured cfg = false)
    (hmiss : st.session_cookie = [] ∨ st.cookie_expiry ≤ now) :
    get_admin_session cfg now st auth = (.error .configError, st, 0) := by
  have hA : (!st.session_cookie.isEmpty && decide (now < st.cookie_expiry)) = false := by
    rcases hmiss with h | h
    · simp [h]
    · have : ¬ (now < st.cookie_expiry) := by omega
      simp [this]
  unfold get_admin_session
  simp [hA, hnotok]

/-- Witness for C4 with an unset token and empty cache. -/
theorem missing_admin_token_witness :
    get_admin_session ⟨none, 300⟩ 50 initState .transport = (.error .configError, initState, 0) :=
  missing_admin_token_config_error ⟨none, 300⟩ 50 initState .transport (by decide)
    (Or.inl (by decide))

/-- C2: a successful authentication at time `now` (status in `{200, 302}`,
`VW_ADMIN` cookie present) stores the cookie with expiry `now + 3600`,
overwriting any previous value, using exactly one network call; and every
later `get_admin_session` call at a time `now' < now + 3600` returns that
stored cookie unchanged with zero network calls and no state change, so no
second authentication occurs inside the window. -/
theorem auth_success_caches_credential (cfg : Config) (now : Int) (st : CacheState)
    (status : Nat) (cookies : Cookies)
    (hmiss : st.session_cookie = [] ∨ st.cookie_expiry ≤ now)
    (htok : tokenConfigured cfg = true)
    (hstatus : status = 200 ∨ status = 302)
    (hcookie : hasVWAdmin cookies = true) :
    get_admin_session cfg now st (.resp status cookies)
      = (.ok cookies, ⟨st.stats, st.last_fetch, cookies, now + 3600⟩, 1)
    ∧ ∀ (now' : Int) (auth' : AuthOutcome), now' < now + 3600 →
        get_admin_session cfg now' ⟨st.stats, st.last_fetch, cookies, now + 3600⟩ auth'
          = (.ok cookies, ⟨st.stats, st.last_fetch, cookies, now + 3600⟩, 0) := by
  have hcne : cookies ≠ [] := by
    intro h
    rw [h] at hcookie
    exact absurd hcookie (by decide)
  constructor
  · have hA : (!st.session_cookie.isEmpty && decide (now < st.cookie_expiry)) = false := by
      rcases hmiss with h | h
      · simp [h]
      · have : ¬ (now < st.cookie_expiry) := by omega
        simp [this]
    have hst : (status == 200 || status == 302) = true := by
      rcases hstatus with h | h <;> simp [h]
    unfold get_admin_session
    simp [hA, htok, hst, hcookie, List.isEmpty_iff, hcne]
  · intro now' auth' hlt
    exact get_admin_session_cache_hit cfg now' ⟨st.stats, st.last_fetch, cookies, now + 3600⟩
      auth' hcne hlt

/-- Witness for C2 at a concrete successful login. -/
theorem auth_success_caches_witness :
    get_admin_session ⟨some "tok", 300⟩ 1000 initState (.resp 200 [("VW_ADMIN", "abc")])
        = (.ok [("VW_ADMIN", "abc")], ⟨[], 0, [("VW_ADMIN", "abc")], 4600⟩, 1)
    ∧ get_admin_session ⟨some "tok", 300⟩ 4599 ⟨[], 0, [("VW_ADMIN", "abc")], 4600⟩ .transport
        = (.ok [("VW_ADMIN", "abc")], ⟨[], 0, [("VW_ADMIN", "abc")], 4600⟩, 0) := by
  have h := auth_success_caches_credential ⟨some "tok", 300⟩ 1000 initState 200
    [("VW_ADMIN", "abc")] (Or.inl (by decide)) (by decide) (Or.inl rfl) (by decide)
  exact ⟨h.1, h.2 4599 .transport (by decide)⟩

/-- C5: after a cache miss with a configured token, an authentication response
with a status outside `{200, 302}` raises the status-carrying auth error, and
a response in `{200, 302}` without the `VW_ADMIN` cookie raises the
missing-session-token error; in both cases the cache is untouched, so no
credential is stored. -/
theorem auth_bad_response_auth_error (cfg : Config) (now : Int) (st : CacheState)
    (status : Nat) (cookies : Cookies)
    (hmiss : st.session_cookie = [] ∨ st.cookie_expiry ≤ now)
    (htok : tokenConfigured cfg = true) :
    (¬ (status = 200 ∨ status = 302) →
      get_admin_session cfg now st (.resp status cookies)
        = (.error (.authStatus status), st, 1))
    ∧ ((status = 200 ∨ status = 302) → hasVWAdmin cookies = false →
      get_admin_session cfg now st (.resp status cookies)
        = (.error .authNoCookie, st, 1)) := by
  have hA : (!st.session_cookie.isEmpty && decide (now < st.cookie_expiry)) = false := by
    rcases hmiss with h | h
    · simp [h]
    · have : ¬ (now < st.cookie_expiry) := by omega
      simp [this]
  constructor
  · intro hbad
    have hst : (status == 200 || status == 302) = false := by
      simp only [Bool.or_eq_false_iff, beq_eq_false_iff_ne]
      exact ⟨fun h => hbad (Or.inl h), fun h => hbad (Or.inr h)⟩
    unfold get_admin_session
    simp [hA, htok, hst]
  · intro hgood hnocookie
    have hst : (status == 200 || status == 302) = true := by
      rcases hgood with h | h <;> simp [h]
    unfold get_admin_session
    simp [hA, htok, hst, hnocookie]

/-- Witness for C5: a `403` response and a cookie-less `302` response. -/
theorem auth_bad_response_witness :
    get_admin_session ⟨some "tok", 300⟩ 7 initState (.resp 403 [])
        = (.error (.authStatus 403), initState, 1)
    ∧ get_admin_session ⟨some "tok", 300⟩ 7 initState (.resp 302 [("other", "x")])
        = (.error .authNoCookie, initState, 1) :=
  ⟨(auth_bad_response_auth_error ⟨some "tok", 300⟩ 7 initState 403 []
      (Or.inl (by decide)) (by decide)).1 (by decide),
    (auth_bad_response_auth_error ⟨some "tok", 300⟩ 7 initState 302 [("other", "x")]
      (Or.inl (by decide)) (by decide)).2 (Or.inr rfl) (by decide)⟩

/-- C3: on a stats-cache miss, when a credential is obtained and the
user-listing fetch fails (transport failure, status 400-599, or undecodable
body), `get_vaultwarden_stats` raises the corresponding fetch error, the old
snapshot and its timestamp are not touched (no stale fallback is produced),
the session fields stay exactly as the session step left them, and any
non-empty unexpired cached cookie is returned by the next `get_admin_session`
call with zero network calls. -/
theorem users_fetch_failure_preserves_caches (cfg : Config) (now : Int) (st : CacheState)
    (auth : AuthOutcome) (users : UsersOutcome) (cookies : Cookies) (st1 : CacheState) (n : Nat)
    (hmiss : st.stats = [] ∨ cfg.cache_timeout ≤ now - st.last_fetch)
    (hsess : get_admin_session cfg now st auth = (.ok cookies, st1, n))
    (hfail : usersFetchFailed users = true) :
    get_vaultwarden_stats cfg now st auth users = (.error (usersFailErr users), st1, (n, 1))
    ∧ (usersFailErr users).isFetchErr = true
    ∧ st1.stats = st.stats ∧ st1.last_fetch = st.last_fetch
    ∧ ∀ (now' : Int) (auth' : AuthOutcome), st1.session_cookie ≠ [] →
        now' < st1.cookie_expiry →
        get_admin_session cfg now' st1 auth' = (.ok st1.session_cookie, st1, 0) := by
  have hC : (!st.stats.isEmpty && decide (now - st.last_fetch < cfg.cache_timeout)) = false := by
    rcases hmiss with h | h
    · simp [h]
    · have : ¬ (now - st.last_fetch < cfg.cache_timeout) := by omega
      simp [this]
  have hpres := get_admin_session_preserves_stats cfg now st auth
  rw [hsess] at hpres
  have hmain : get_vaultwarden_stats cfg now st auth users
      = (.error (usersFailErr users), st1, (n, 1)) := by
    unfold get_vaultwarden_stats
    rw [hC]
    simp only [Bool.false_eq_true, if_false, hsess]
    cases users with
    | transport => rfl
    | resp status body =>
      simp only [usersFetchFailed, Bool.or_eq_true, decide_eq_true_eq, Option.isNone_iff_eq_none]
        at hfail
      by_cases hs : 400 ≤ status ∧ status ≤ 599
      · simp [fetchAndDerive, usersFailErr, hs]
      · rcases hfail with h | h
        · exact absurd h hs
        · subst h
          simp [fetchAndDerive, usersFailErr, hs]
  have hferr : (usersFailErr users).isFetchErr = true := by
    cases users with
    | transport => rfl
    | resp status body =>
      unfold usersFailErr
      by_cases hs : 400 ≤ status ∧ status ≤ 599
      · simp [hs, StatsError.isFetchErr]
      · simp [hs, StatsError.isFetchErr]
  exact ⟨hmain, hferr, hpres.1, hpres.2,
    fun now' auth' hne hlt => get_admin_session_cache_hit cfg now' st1 auth' hne hlt⟩

/-- Witness for C3: fresh login succeeds, listing `GET` times out; the
credential stays cached and is reused at a later instant. -/
theorem users_fetch_failure_witness :
    get_vaultwarden_stats ⟨some "tok", 300⟩ 1000 initState
        (.resp 200 [("VW_ADMIN", "abc")]) .transport
      = (.error .fetchTransport, ⟨[], 0, [("VW_ADMIN", "abc")], 4600⟩, (1, 1)) := by
  have h := users_fetch_failure_preserves_caches ⟨some "tok", 300⟩ 1000 initState
    (.resp 200 [("VW_ADMIN", "abc")]) .transport [("VW_ADMIN", "abc")]
    ⟨[], 0, [("VW_ADMIN", "abc")], 4600⟩ 1 (Or.inl rfl) rfl rfl
  exact h.1

/-- C10: starting from any cache whose stored snapshot (if any) has the four
item-type breakdown keys at 0, every snapshot `get_vaultwarden_stats` returns
carries `logins`, `notes`, `cards` and `identities` all equal to 0 - the
`items_by_type` accumulator is initialized to zeros and never updated - and
the cache keeps that invariant afterwards. -/
theorem item_breakdown_always_zero (cfg : Config) (now : Int) (st : CacheState)
    (auth : AuthOutcome) (users : UsersOutcome)
    (hinv : st.stats = [] ∨ zeroBreakdown st.stats = true) :
    (∀ r, (get_vaultwarden_stats cfg now st auth users).1 = .ok r → zeroBreakdown r = true)
    ∧ ((get_vaultwarden_stats cfg now st auth users).2.1.stats = [] ∨
        zeroBreakdown ((get_vaultwarden_stats cfg now st auth users).2.1.stats) = true) := by
  by_cases hc : (!st.stats.isEmpty && decide (now - st.last_fetch < cfg.cache_timeout)) = true
  · have heq : get_vaultwarden_stats cfg now st auth users = (.ok st.stats, st, (0, 0)) := by
      unfold get_vaultwarden_stats
      rw [if_pos hc]
    have hzb : zeroBreakdown st.stats = true := by
      rcases hinv with h | h
      · simp [h] at hc
      · exact h
    rw [heq]
    refine ⟨fun r h => ?_, Or.inr hzb⟩
    have hr : st.stats = r := by simpa using h
    rw [← hr]
    exact hzb
  · rcases hE : get_admin_session cfg now st auth with ⟨res, st1, n⟩
    have hpres := get_admin_session_preserves_stats cfg now st auth
    rw [hE] at hpres
    cases res with
    | error e =>
      have heq : get_vaultwarden_stats cfg now st auth users
          = (.error (.sessionErr e), st1, (n, 0)) := by
        unfold get_vaultwarden_stats
        rw [if_neg hc, hE]
      rw [heq]
      refine ⟨fun r h => absurd h (by simp), ?_⟩
      show st1.stats = [] ∨ zeroBreakdown st1.stats = true
      rw [show st1.stats = st.stats from hpres.1]
      exact hinv
    | ok cookies =>
      have heq : get_vaultwarden_stats cfg now st auth users
          = fetchAndDerive now st1 users n := by
        unfold get_vaultwarden_stats
        rw [if_neg hc, hE]
      rw [heq]
      have hfd := fetchAndDerive_breakdown now st1 users n
      refine ⟨hfd.1, ?_⟩
      rcases hfd.2 with h | h
      · rw [h, show st1.stats = st.stats from hpres.1]
        exact hinv
      · exact Or.inr h

/-- Witness for C10: a fresh fetch of two records with cipher counts still
reports all four breakdown fields as 0. -/
theorem item_breakdown_witness :
    (get_vaultwarden_stats ⟨some "tok", 300⟩ 1000 initState (.resp 200 [("VW_ADMIN", "a")])
        (.resp 200 (some [[("CipherCount", JVal.jnum 3)], [("items_count", JVal.jnum 4)]]))).1
      = .ok (mkSnap 2 0 7)
    ∧ zeroBreakdown (mkSnap 2 0 7) = true := by
  have h := item_breakdown_always_zero ⟨some "tok", 300⟩ 1000 initState
    (.resp 200 [("VW_ADMIN", "a")])
    (.resp 200 (some [[("CipherCount", JVal.jnum 3)], [("items_count", JVal.jnum 4)]]))
    (Or.inl rfl)
  refine ⟨rfl, h.1 (mkSnap 2 0 7) rfl⟩

/-- C6 counterexample: a record whose `lastActive` is 5 days before
`now = 2024-02-01 00:00:00` (epoch second 1706745600) in ISO-8601 shape with
a `Z` suffix does not parse (`strptime('%Y-%m-%d %H:%M:%S')` rejects the `T`
and `Z`) and is therefore not counted in `active_users`, contradicting the
claim that the ISO-8601 shapes are accepted and such a record is counted. -/
theorem iso_shape_rejected_cex :
    parseLastActive "2024-01-27T00:00:00Z" = none
    ∧ derive 1706745600 [[("lastActive", JVal.jstr "2024-01-27T00:00:00Z")]]
        = .ok (mkSnap 1 0 0) :=
  ⟨rfl, rfl⟩

/-- C6 amended: the parser accepts only the space-delimited
`YYYY-MM-DD HH:MM:SS` shape, optionally followed by a `+`-prefixed offset
suffix that is stripped; ISO-8601 shapes (`T` separator, `Z` or `+hh:mm`
offset) fail to parse and such records are excluded from `active_users`.  A
record whose value does parse is counted exactly when its timestamp is
strictly after `now - 30 days`: at `now = 2024-02-01` the 5-days-old
space-shaped record is counted (with or without offset suffix), the
`2024-01-01 00:00:00 +08` record is not, the exact `now - 30 days` boundary
is not, and one second past the boundary is. -/
theorem last_active_window_amended :
    derive 1706745600 [[("lastActive", JVal.jstr "2024-01-27 00:00:00")]] = .ok (mkSnap 1 1 0)
    ∧ derive 1706745600 [[("lastActive", JVal.jstr "2024-01-27 00:00:00 +08")]]
        = .ok (mkSnap 1 1 0)
    ∧ derive 1706745600 [[("lastActive", JVal.jstr "2024-01-01 00:00:00 +08")]]
        = .ok (mkSnap 1 0 0)
    ∧ derive 1706745600 [[("lastActive", JVal.jstr "2024-01-27T00:00:00Z")]]
        = .ok (mkSnap 1 0 0)
    ∧ derive 1706745600 [[("lastActive", JVal.jstr "2024-01-27T00:00:00+00:00")]]
        = .ok (mkSnap 1 0 0)
    ∧ derive 1706745600 [[("lastActive", JVal.jstr "2024-01-02 00:00:00")]] = .ok (mkSnap 1 0 0)
    ∧ derive 1706745600 [[("lastActive", JVal.jstr "2024-01-02 00:00:01")]] = .ok (mkSnap 1 1 0)
    ∧ ∀ (now t : Int) (s : String), parseLastActive s = some t →
        derive now [[("lastActive", JVal.jstr s)]]
          = .ok (mkSnap 1 (if now - 30 * 86400 < t then 1 else 0) 0) := by
  refine ⟨rfl, rfl, rfl, rfl, rfl, rfl, rfl, ?_⟩
  intro now t s hp
  have hne : (s == "") = false := by
    cases hbe : s == "" with
    | true =>
      have hs : s = "" := eq_of_beq hbe
      rw [hs] at hp
      have hcontra : (none : Option Int) = some t := hp
      exact Option.noConfusion hcontra
    | false => rfl
  have h1 : resolveLastActive [("lastActive", JVal.jstr s)] = pyOr (.jstr s) .jnull := rfl
  have h2 : resolveLastActive [("lastActive", JVal.jstr s)] = .jstr s := by
    rw [h1, pyOr, if_pos]
    simp [JVal.truthy, hne]
  have hai : activeIncrement now [("lastActive", JVal.jstr s)]
      = if now - 30 * 86400 < t then 1 else 0 := by
    unfold activeIncrement
    simp only [h2]
    rw [if_pos (by simp [JVal.truthy, hne])]
    simp only [hp]
  have hall : allAddable [[("lastActive", JVal.jstr s)]] = true := rfl
  have hsa : specActive now [[("lastActive", JVal.jstr s)]]
      = activeIncrement now [("lastActive", JVal.jstr s)] := by
    simp [specActive]
  rw [derive_eq, if_pos hall, hsa, hai]
  rfl

/-- Witness for C6 amended: the general window conjunct instantiated at a
concrete parse (2.5 days before `now`). -/
theorem last_active_window_witness :
    derive 1706745600 [[("lastActive", JVal.jstr "2024-01-29 12:00:00")]]
      = .ok (mkSnap 1 1 0) := by
  have h := last_active_window_amended.2.2.2.2.2.2.2 1706745600 1706529600
    "2024-01-29 12:00:00" rfl
  rw [if_pos (by decide)] at h
  exact h

/-- C7 counterexample: `derive` on the empty record list (where no item-count
field is present) still includes `total_items` (as 0) and the breakdown keys
in the snapshot, rather than omitting them. -/
theorem derive_empty_includes_items_cex :
    derive 0 [] = .ok (mkSnap 0 0 0)
    ∧ (mkSnap 0 0 0).lookup "total_items" = some 0
    ∧ (mkSnap 0 0 0).lookup "logins" = some 0 :=
  ⟨rfl, rfl, rfl⟩

/-- C7 amended: every snapshot the derivation produces carries `total_items`
(the sum of the per-record resolved cipher counts, 0 when no record has such
a field) and the four breakdown keys with value 0; nothing is ever omitted. -/
theorem snapshot_item_fields_always_present (now : Int) (recs : List JRecord)
    (r : List (String × Int)) (h : derive now recs = .ok r) :
    r.lookup "total_items" = some (specItems recs)
    ∧ r.lookup "logins" = some 0 ∧ r.lookup "notes" = some 0
    ∧ r.lookup "cards" = some 0 ∧ r.lookup "identities" = some 0 := by
  rw [derive_ok_shape now recs r h]
  exact ⟨rfl, rfl, rfl, rfl, rfl⟩

/-- Witness for C7 amended: two records with cipher counts 3 and 4 under
different spellings sum to 7; the breakdown keys are present at 0. -/
theorem snapshot_item_fields_witness :
    (mkSnap 2 0 7).lookup "total_items" = some 7
    ∧ (mkSnap 2 0 7).lookup "logins" = some 0
    ∧ (mkSnap 2 0 7).lookup "notes" = some 0
    ∧ (mkSnap 2 0 7).lookup "cards" = some 0
    ∧ (mkSnap 2 0 7).lookup "identities" = some 0 :=
  snapshot_item_fields_always_present 0
    [[("CipherCount", JVal.jnum 3)], [("items_count", JVal.jnum 4)]] (mkSnap 2 0 7) rfl

/-- C8 counterexample: a record whose only item-count field holds a string
makes line 131 (`total_items += cipher_count`) raise an uncaught `TypeError`,
so the derivation aborts instead of degrading gracefully. -/
theorem string_cipher_count_raises_cex :
    derive 0 [[("items_count", JVal.jstr "x")]] = .error .typeError :=
  rfl

/-- C8 amended: whenever every record's resolved cipher-count value is one
the integer addition accepts (in particular whenever those fields are absent),
the derivation succeeds with `total_users = len(records)`; a record whose
`lastActive` is absent, a non-string, or an unparsable string still counts in
`total_users`, is excluded from `active_users`, and does not abort the
processing of later records.  A truthy non-numeric cipher-count value,
however, aborts the whole derivation with a `TypeError`. -/
theorem derive_total_users_graceful (now : Int) (recs : List JRecord)
    (hadd : allAddable recs = true) :
    (∃ r, derive now recs = .ok r ∧ r.lookup "total_users" = some (recs.length : Int)
      ∧ r.lookup "active_users" = some ((specActive now recs : Nat) : Int))
    ∧ derive 1706745600 [[("lastActive", JVal.jstr "not-a-date")]] = .ok (mkSnap 1 0 0)
    ∧ derive 1706745600 [[("email", JVal.jstr "a@b")], [("lastActive", JVal.jnum 5)],
        [("lastActive", JVal.jstr "not-a-date")],
        [("lastActive", JVal.jstr "2024-01-29 12:00:00")]] = .ok (mkSnap 4 1 0)
    ∧ derive 0 [[("items_count", JVal.jstr "x")]] = .error .typeError := by
  refine ⟨⟨mkSnap recs.length (specActive now recs) (specItems recs), ?_, rfl, rfl⟩,
    rfl, rfl, rfl⟩
  rw [derive_eq, if_pos hadd]

/-- Witness for C8 amended: a malformed and an absent `lastActive` with an
integer cipher count. -/
theorem derive_total_users_graceful_witness :
    ∃ r, derive 0 [[("lastActive", JVal.jstr "not-a-date")], [("CipherCount", JVal.jnum 2)]]
        = .ok r
      ∧ r.lookup "total_users" = some 2 ∧ r.lookup "active_users" = some 0 :=
  (derive_total_users_graceful 0
    [[("lastActive", JVal.jstr "not-a-date")], [("CipherCount", JVal.jnum 2)]] rfl).1

end VaultwardenProxy
